import Mathlib

/-!
Shallow embedding of `aggregate_and_display.py` (district statistics
pipeline: three source collectors, a pure aggregator, a snapshot record
and an orchestrating main), together with theorems settling the claims
about it.

Counts are modelled as `Int` (Python integers).  HTTP traffic is
modelled by an environment (oracle) value per collector that fixes, for
each request the code can make, whether the request raises and, if not,
the response status, text and parsed JSON body.  JSON bodies are a
`Json` inductive; the embedding assumes (per the API schemas the code
relies on) that a field the code reads with `.get` lives in a JSON
object, that list-valued fields are JSON arrays when present, and that
count fields are JSON numbers when present.
-/

/-- JSON values, as produced by `response.json()`. -/
inductive Json where
  | null
  | str (s : String)
  | num (n : Int)
  | bool (b : Bool)
  | arr (elems : List Json)
  | obj (fields : List (String × Json))

/-- Key lookup in the field list of a JSON object (first binding wins,
as in a Python dict built from distinct keys). -/
def lookupField : List (String × Json) → String → Option Json
  | [], _ => none
  | (k, v) :: rest, key => if k = key then some v else lookupField rest key

/-- Python `d.get(key)`: `some v` when the key is present, else `none`.
On a non-object the code would have raised before reaching the `.get`;
the embedding returns `none` there. -/
def jsonGet : Json → String → Option Json
  | Json.obj fields, key => lookupField fields key
  | _, _ => none

/-- Python `d.get(key, default)`. -/
def jsonGetD (j : Json) (key : String) (default : Json) : Json :=
  (jsonGet j key).getD default

/-- Python truthiness of a JSON value. -/
def jsonTruthy : Json → Bool
  | Json.null => false
  | Json.str s => !(s = "")
  | Json.num n => !(n = 0)
  | Json.bool b => b
  | Json.arr elems => !elems.isEmpty
  | Json.obj fields => !fields.isEmpty

/-- Python truthiness of the result of a `.get` (a missing key yields
`None`, which is falsy). -/
def optTruthy : Option Json → Bool
  | none => false
  | some j => jsonTruthy j

/-- Python `d.get(key, [])` for a list-valued field: the list when the
key is present (the embedding assumes the field is a JSON array when
present), `[]` when absent. -/
def jsonGetListD (j : Json) (key : String) : List Json :=
  match jsonGet j key with
  | some (Json.arr elems) => elems
  | _ => []

/-- Python `d.get(key, default)` for a count field: the number when the
key is present (the embedding assumes the field is a JSON number when
present), the default when absent. -/
def jsonGetIntD (j : Json) (key : String) (default : Int) : Int :=
  match jsonGet j key with
  | some (Json.num n) => n
  | _ => default

/-! ## PartialResults and CanonicalStats -/

/-- The dict returned by `collect_google_data`
(`{'staff': _, 'students': _, 'chromebooks': _, 'error': _}`). -/
structure GoogleResult where
  staff : Int
  students : Int
  chromebooks : Int
  error : Option String
  deriving DecidableEq, Repr

/-- The dict returned by `collect_jamf_data`
(`{'macs': _, 'ipads': _, 'error': _}`). -/
structure JamfResult where
  macs : Int
  ipads : Int
  error : Option String
  deriving DecidableEq, Repr

/-- The dict returned by `collect_eschool_data`
(`{'students': _, 'staff': _, 'error': _}`). -/
structure EschoolResult where
  students : Int
  staff : Int
  error : Option String
  deriving DecidableEq, Repr

/-- The dict returned by `aggregate_data`. -/
structure CanonicalStats where
  total_students : Int
  total_staff : Int
  chromebooks : Int
  mac_computers : Int
  ipads : Int
  total_devices : Int
  notes : List String
  deriving DecidableEq, Repr

/-- The f-string appended to `notes` in `aggregate_data` when the two
student counts disagree by more than the tolerance. -/
def studentNote (diff es gs : Int) : String :=
  "Student count differs by " ++ toString diff ++ " between eSchool (" ++
    toString es ++ ") and Google (" ++ toString gs ++ ")"

/-- `aggregate_data(google, jamf, eschool)`: fixed-precedence
reconciliation of the three partial results (lines 202-246). -/
def aggregate_data (google : GoogleResult) (jamf : JamfResult)
    (eschool : EschoolResult) : CanonicalStats :=
  let students := if eschool.students > 0 then eschool.students else google.students
  let staff := google.staff
  let chromebooks := google.chromebooks
  let macs := jamf.macs
  let ipads := jamf.ipads
  let total_devices := chromebooks + macs + ipads
  let notes : List String :=
    if eschool.students > 0 ∧ google.students > 0 then
      let diff := |eschool.students - google.students|
      if diff > 10 then [studentNote diff eschool.students google.students] else []
    else []
  ⟨students, staff, chromebooks, macs, ipads, total_devices, notes⟩

/-- Claim C1: for every triple of partial results the aggregator returns
`total_devices` equal to `chromebooks + mac_computers + ipads`, and that
sum is recomputed from the Directory chromebook count and the two
Device-management counts, never read from any source field. -/
theorem total_devices_recomputed (google : GoogleResult) (jamf : JamfResult)
    (eschool : EschoolResult) :
    (aggregate_data google jamf eschool).total_devices =
      (aggregate_data google jamf eschool).chromebooks +
      (aggregate_data google jamf eschool).mac_computers +
      (aggregate_data google jamf eschool).ipads ∧
    (aggregate_data google jamf eschool).total_devices =
      google.chromebooks + jamf.macs + jamf.ipads := by
  constructor <;> rfl

/-- Claim C2: `total_students` is the eSchool student count when that
count is strictly positive, and the Google student count otherwise; in
particular an eSchool count of `0` yields the Google count exactly. -/
theorem total_students_precedence (google : GoogleResult) (jamf : JamfResult)
    (eschool : EschoolResult) :
    (aggregate_data google jamf eschool).total_students =
      (if eschool.students > 0 then eschool.students else google.students) ∧
    (eschool.students = 0 →
      (aggregate_data google jamf eschool).total_students = google.students) := by
  refine ⟨rfl, fun h => ?_⟩
  simp [aggregate_data, h]

/-- Claim C2 witness: the precedence rule applied at the concrete triple
with eSchool student count `0` yields the Google student count. -/
theorem total_students_precedence_witness :
    (aggregate_data ⟨50, 400, 300, none⟩ ⟨20, 15, none⟩
        ⟨0, 0, some "down"⟩).total_students = 400 :=
  (total_students_precedence ⟨50, 400, 300, none⟩ ⟨20, 15, none⟩
    ⟨0, 0, some "down"⟩).2 rfl

/-- Claim C3: `total_staff` is always the Directory (Google) staff
count, and replacing the eSchool staff value by anything at all leaves
the whole `CanonicalStats` unchanged. -/
theorem total_staff_from_directory (google : GoogleResult) (jamf : JamfResult)
    (eschool : EschoolResult) (v : Int) :
    (aggregate_data google jamf eschool).total_staff = google.staff ∧
    aggregate_data google jamf
        { eschool with staff := v } = aggregate_data google jamf eschool := by
  constructor <;> rfl

/-- Claim C4: the notes list holds exactly the one discrepancy entry,
built from both student counts and their absolute difference, precisely
when both counts are positive and differ by more than 10; otherwise it
is empty; and the chosen `total_students` is the precedence value
regardless of the note. -/
theorem discrepancy_note_spec (google : GoogleResult) (jamf : JamfResult)
    (eschool : EschoolResult) :
    (aggregate_data google jamf eschool).notes =
      (if eschool.students > 0 ∧ google.students > 0 ∧
          |eschool.students - google.students| > 10 then
        [studentNote |eschool.students - google.students|
          eschool.students google.students]
      else []) ∧
    ((aggregate_data google jamf eschool).notes.length = 1 ↔
      (eschool.students > 0 ∧ google.students > 0 ∧
        |eschool.students - google.students| > 10)) ∧
    (aggregate_data google jamf eschool).total_students =
      (if eschool.students > 0 then eschool.students else google.students) := by
  refine ⟨?_, ?_, rfl⟩
  · simp only [aggregate_data]
    by_cases h1 : eschool.students > 0 ∧ google.students > 0
    · by_cases h2 : |eschool.students - google.students| > 10 <;>
        simp [h1, h2]
    · simp [h1]
      intro ha hb
      exact absurd ⟨ha, hb⟩ h1
  · simp only [aggregate_data]
    by_cases h1 : eschool.students > 0 ∧ google.students > 0
    · by_cases h2 : |eschool.students - google.students| > 10 <;>
        simp [h1, h2]
    · simp [h1]
      intro ha hb
      exact absurd ⟨ha, hb⟩ h1

/-! ## HTTP oracle -/

/-- A `requests` response as the collectors observe it: the HTTP status,
the raw body text, and the outcome of `.json()` (parsed value, or the
text of the raised decode error). -/
structure RResponse where
  status_code : Int
  text : String
  body : Except String Json

/-- One `requests.post`/`requests.get` call: either the call raised
(connection error, timeout, ...) with the given exception text, or it
returned a response. -/
inductive RCall where
  | exn (msg : String)
  | resp (r : RResponse)

/-- `requests` call outcome as an `Except`: a raising call propagates
its exception text. -/
def getResp : RCall → Except String RResponse
  | RCall.exn msg => Except.error msg
  | RCall.resp r => Except.ok r

/-- One Google API `.execute()` call: it either raised or returned an
already-parsed page. -/
inductive GCall where
  | exn (msg : String)
  | page (body : Json)

/-! ## Directory (Google) collector, lines 51-101 -/

/-- The environment of one run of `collect_google_data`: whether loading
the service-account credentials / building the client raises, and the
successive page responses for the three paginated listings. -/
structure GoogleEnv where
  credFailure : Option String
  staffPages : List GCall
  studentPages : List GCall
  chromebookPages : List GCall

/-- The pagination loop of `count_users` / `count_chromebooks`: extend
with `results.get(listKey, [])`, read `nextPageToken`, stop when it is
falsy.  A request past the oracle's supply of responses is a request
that never gets an answer, modelled as a raised connection error. -/
def fetchPages (listKey : String) : List GCall → Except String (List Json)
  | [] => Except.error "connection aborted"
  | GCall.exn msg :: _ => Except.error msg
  | GCall.page body :: rest =>
    let items := jsonGetListD body listKey
    if optTruthy (jsonGet body "nextPageToken") then
      match fetchPages listKey rest with
      | Except.ok more => Except.ok (items ++ more)
      | Except.error msg => Except.error msg
    else Except.ok items

/-- `not u.get('suspended', False)`. -/
def isNotSuspended (u : Json) : Bool :=
  !(jsonTruthy (jsonGetD u "suspended" (Json.bool false)))

/-- `d.get('status') == 'ACTIVE'` (false for a missing or non-string
status, as in Python). -/
def isActiveDevice (d : Json) : Bool :=
  match jsonGet d "status" with
  | some (Json.str s) => s = "ACTIVE"
  | _ => false

/-- The body of `collect_google_data`s `try` block: staff count, student
count, chromebook count, or the first raised exception. -/
def googleRun (env : GoogleEnv) : Except String (Int × Int × Int) :=
  match env.credFailure with
  | some msg => Except.error msg
  | none =>
    match fetchPages "users" env.staffPages with
    | Except.error msg => Except.error msg
    | Except.ok staffUsers =>
      match fetchPages "users" env.studentPages with
      | Except.error msg => Except.error msg
      | Except.ok studentUsers =>
        match fetchPages "chromeosdevices" env.chromebookPages with
        | Except.error msg => Except.error msg
        | Except.ok devices =>
          Except.ok (((staffUsers.filter isNotSuspended).length : Int),
            ((studentUsers.filter isNotSuspended).length : Int),
            ((devices.filter isActiveDevice).length : Int))

/-- `collect_google_data`: the `try` body on success, the zeroed dict
with `error = str(e)` when anything in it raises. -/
def collect_google_data (env : GoogleEnv) : GoogleResult :=
  match googleRun env with
  | Except.ok (staff, students, chromebooks) => ⟨staff, students, chromebooks, none⟩
  | Except.error msg => ⟨0, 0, 0, some msg⟩

/-! ## Device-management (JAMF) collector, lines 107-140 -/

/-- The environment of one run of `collect_jamf_data`: the token POST,
the computers listing and the mobile-devices listing. -/
structure JamfEnv where
  tokenCall : RCall
  computersCall : RCall
  mobilesCall : RCall

/-- The body of `collect_jamf_data`s `try` block.  The early `return`
for a falsy `access_token` is an ordinary return, not an exception, so
it lands in the `ok` branch. -/
def jamfRun (env : JamfEnv) : Except String JamfResult :=
  match getResp env.tokenCall with
  | Except.error msg => Except.error msg
  | Except.ok tokenResp =>
    match tokenResp.body with
    | Except.error msg => Except.error msg
    | Except.ok tokenBody =>
      if !(optTruthy (jsonGet tokenBody "access_token")) then
        Except.ok ⟨0, 0, some "No token"⟩
      else
        match getResp env.computersCall with
        | Except.error msg => Except.error msg
        | Except.ok compResp =>
          match compResp.body with
          | Except.error msg => Except.error msg
          | Except.ok compBody =>
            match getResp env.mobilesCall with
            | Except.error msg => Except.error msg
            | Except.ok mobResp =>
              match mobResp.body with
              | Except.error msg => Except.error msg
              | Except.ok mobBody =>
                Except.ok ⟨((jsonGetListD compBody "computers").length : Int),
                  ((jsonGetListD mobBody "mobile_devices").length : Int), none⟩

/-- `collect_jamf_data`. -/
def collect_jamf_data (env : JamfEnv) : JamfResult :=
  match jamfRun env with
  | Except.ok r => r
  | Except.error msg => ⟨0, 0, some msg⟩

/-! ## Student-information (eSchool) collector, lines 146-196 -/

/-- The environment of one run of `collect_eschool_data`: the token
POST, the students query, and the three staff-endpoint probes
(`staff`, `employees`, `personnel`). -/
structure EschoolEnv where
  tokenCall : RCall
  studentsCall : RCall
  staffCall : RCall
  employeesCall : RCall
  personnelCall : RCall

/-- `r.json().get('pagingInfo', {}).get('totalCount', 0)`. -/
def pagingTotalCount (body : Json) : Int :=
  jsonGetIntD (jsonGetD body "pagingInfo" (Json.obj [])) "totalCount" 0

/-- The staff fallback loop (lines 174-189): `staff_count` starts at 0
and persists across iterations; a raising probe or a raising `.json()`
is caught by the inner `except Exception: continue`; a 200 response
assigns the reported total and breaks when it is truthy. -/
def eschoolStaffLoop : List RCall → Int → Int
  | [], staff_count => staff_count
  | c :: rest, staff_count =>
    match c with
    | RCall.exn _ => eschoolStaffLoop rest staff_count
    | RCall.resp r =>
      if r.status_code = 200 then
        match r.body with
        | Except.error _ => eschoolStaffLoop rest staff_count
        | Except.ok body =>
          let sc := pagingTotalCount body
          if sc ≠ 0 then sc else eschoolStaffLoop rest sc
      else eschoolStaffLoop rest staff_count

/-- The body of `collect_eschool_data`s `try` block.  The token value
read from the token body is never validated; it only feeds the
Authorization header, whose effect the oracle already fixes, so the
parsed token body is not consulted further. -/
def eschoolRun (env : EschoolEnv) : Except String EschoolResult :=
  match getResp env.tokenCall with
  | Except.error msg => Except.error msg
  | Except.ok tokenResp =>
    match tokenResp.body with
    | Except.error msg => Except.error msg
    | Except.ok _tokenBody =>
      match getResp env.studentsCall with
      | Except.error msg => Except.error msg
      | Except.ok sResp =>
        match sResp.body with
        | Except.error msg => Except.error msg
        | Except.ok sBody =>
          Except.ok ⟨pagingTotalCount sBody,
            eschoolStaffLoop [env.staffCall, env.employeesCall, env.personnelCall] 0,
            none⟩

/-- `collect_eschool_data`. -/
def collect_eschool_data (env : EschoolEnv) : EschoolResult :=
  match eschoolRun env with
  | Except.ok r => r
  | Except.error msg => ⟨0, 0, some msg⟩

/-! ## Collector error-isolation claims -/

/-- A successful `jamfRun` result either carries no error or is the
missing-token early return. -/
lemma jamfRun_ok_shape (env : JamfEnv) (r : JamfResult)
    (h : jamfRun env = Except.ok r) :
    r.error = none ∨ r = ⟨0, 0, some "No token"⟩ := by
  unfold jamfRun at h
  repeat' split at h
  all_goals simp_all
  all_goals simp [← h]

/-- A successful `eschoolRun` result never carries an error. -/
lemma eschoolRun_ok_shape (env : EschoolEnv) (r : EschoolResult)
    (h : eschoolRun env = Except.ok r) : r.error = none := by
  unfold eschoolRun at h
  repeat' split at h
  all_goals simp_all
  all_goals simp [← h]

/-- Claim C8: on every path of every collector, a partial result whose
error descriptor is set has all of its counts equal to zero. -/
theorem partial_result_never_half_populated (genv : GoogleEnv)
    (jenv : JamfEnv) (eenv : EschoolEnv) :
    ((collect_google_data genv).error ≠ none →
      (collect_google_data genv).staff = 0 ∧
      (collect_google_data genv).students = 0 ∧
      (collect_google_data genv).chromebooks = 0) ∧
    ((collect_jamf_data jenv).error ≠ none →
      (collect_jamf_data jenv).macs = 0 ∧ (collect_jamf_data jenv).ipads = 0) ∧
    ((collect_eschool_data eenv).error ≠ none →
      (collect_eschool_data eenv).students = 0 ∧
      (collect_eschool_data eenv).staff = 0) := by
  refine ⟨?_, ?_, ?_⟩
  · cases h : googleRun genv with
    | ok v => obtain ⟨a, b, c⟩ := v; simp [collect_google_data, h]
    | error msg => simp [collect_google_data, h]
  · cases h : jamfRun jenv with
    | ok r =>
      rcases jamfRun_ok_shape jenv r h with hr | hr <;>
        simp [collect_jamf_data, h, hr]
    | error msg => simp [collect_jamf_data, h]
  · cases h : eschoolRun eenv with
    | ok r => simp [collect_eschool_data, h, eschoolRun_ok_shape eenv r h]
    | error msg => simp [collect_eschool_data, h]

/-- Claim C8 witness: the invariant applied to three concrete failing
runs whose error descriptors are set. -/
theorem partial_result_never_half_populated_witness :
    (collect_google_data ⟨some "auth scope denied", [], [], []⟩).staff = 0 ∧
    (collect_jamf_data ⟨RCall.exn "connection refused",
        RCall.exn "x", RCall.exn "x"⟩).macs = 0 ∧
    (collect_eschool_data ⟨RCall.exn "read timeout", RCall.exn "x",
        RCall.exn "x", RCall.exn "x", RCall.exn "x"⟩).students = 0 := by
  obtain ⟨hg, hj, he⟩ := partial_result_never_half_populated
    ⟨some "auth scope denied", [], [], []⟩
    ⟨RCall.exn "connection refused", RCall.exn "x", RCall.exn "x"⟩
    ⟨RCall.exn "read timeout", RCall.exn "x", RCall.exn "x", RCall.exn "x", RCall.exn "x"⟩
  exact ⟨(hg (by decide)).1, (hj (by decide)).1, (he (by decide)).1⟩

/-- An eSchool run whose token acquisition and student query succeed
(7 students reported) but whose three staff-endpoint probes all raise a
connection error. -/
def probeDownEnv : EschoolEnv :=
  ⟨RCall.resp ⟨200, "", Except.ok (Json.obj [("access_token", Json.str "tok")])⟩,
   RCall.resp ⟨200, "", Except.ok
     (Json.obj [("pagingInfo", Json.obj [("totalCount", Json.num 7)])])⟩,
   RCall.exn "connection timed out",
   RCall.exn "connection timed out",
   RCall.exn "connection timed out"⟩

/-- Claim C5 counterexample: during this collection the staff probes
raise, yet `collect_eschool_data` returns students = 7 with no error —
not the all-zero result with a non-empty error the claim requires for a
run in which an exception is raised. -/
theorem eschool_swallows_probe_exception :
    probeDownEnv.staffCall = RCall.exn "connection timed out" ∧
    collect_eschool_data probeDownEnv = ⟨7, 0, none⟩ ∧
    ¬((collect_eschool_data probeDownEnv).students = 0 ∧
      (collect_eschool_data probeDownEnv).error ≠ none) := by
  refine ⟨rfl, by decide, by decide⟩

/-- Claim C5 as amended: any exception raised in the body of
`collect_google_data` or `collect_jamf_data`, or in the token
acquisition or student query of `collect_eschool_data`, yields the
all-zero partial result with the exception text as error; but an
exception raised inside the eSchool staff fallback loop is swallowed
by its inner handler (the loop just moves to the next candidate).
No collector propagates an exception (each is a total function into
its result type). -/
theorem collectors_isolate_failures (genv : GoogleEnv) (jenv : JamfEnv)
    (eenv : EschoolEnv) :
    (∀ msg, googleRun genv = Except.error msg →
      collect_google_data genv = ⟨0, 0, 0, some msg⟩) ∧
    (∀ msg, jamfRun jenv = Except.error msg →
      collect_jamf_data jenv = ⟨0, 0, some msg⟩) ∧
    (∀ msg, eschoolRun eenv = Except.error msg →
      collect_eschool_data eenv = ⟨0, 0, some msg⟩) ∧
    (∀ m₁ m₂ m₃ acc, eschoolStaffLoop
      [RCall.exn m₁, RCall.exn m₂, RCall.exn m₃] acc = acc) := by
  refine ⟨fun msg h => ?_, fun msg h => ?_, fun msg h => ?_, fun m₁ m₂ m₃ acc => rfl⟩
  · simp [collect_google_data, h]
  · simp [collect_jamf_data, h]
  · simp [collect_eschool_data, h]

/-- Claim C5 witness: three concrete raising runs, each yielding the
zeroed partial result carrying the (non-empty) exception text. -/
theorem collectors_isolate_failures_witness :
    collect_google_data ⟨some "auth failed", [], [], []⟩ =
      ⟨0, 0, 0, some "auth failed"⟩ ∧
    collect_jamf_data ⟨RCall.exn "connection refused", RCall.exn "x",
      RCall.exn "x"⟩ = ⟨0, 0, some "connection refused"⟩ ∧
    collect_eschool_data ⟨RCall.exn "read timeout", RCall.exn "x",
      RCall.exn "x", RCall.exn "x", RCall.exn "x"⟩ =
      ⟨0, 0, some "read timeout"⟩ := by
  obtain ⟨hg, hj, he, -⟩ := collectors_isolate_failures
    ⟨some "auth failed", [], [], []⟩
    ⟨RCall.exn "connection refused", RCall.exn "x", RCall.exn "x"⟩
    ⟨RCall.exn "read timeout", RCall.exn "x", RCall.exn "x", RCall.exn "x", RCall.exn "x"⟩
  exact ⟨hg _ rfl, hj _ rfl, he _ rfl⟩

/-! ## Token-handling claims -/

/-- An eSchool run whose token response parses but contains no
`access_token`; the student query succeeds with 12 students and the
staff probes return non-200. -/
def tokenlessEnv : EschoolEnv :=
  ⟨RCall.resp ⟨200, "bad client id", Except.ok (Json.obj [])⟩,
   RCall.resp ⟨200, "", Except.ok
     (Json.obj [("pagingInfo", Json.obj [("totalCount", Json.num 12)])])⟩,
   RCall.resp ⟨404, "", Except.error "not json"⟩,
   RCall.resp ⟨404, "", Except.error "not json"⟩,
   RCall.resp ⟨404, "", Except.error "not json"⟩⟩

/-- Claim C7 counterexample: the eSchool token response carries no
`access_token`, yet the collector proceeds with collection and returns
students = 12 with no error, instead of detecting the missing token and
reporting it. -/
theorem eschool_ignores_missing_token :
    jsonGet (Json.obj []) "access_token" = none ∧
    collect_eschool_data tokenlessEnv = ⟨12, 0, none⟩ ∧
    (collect_eschool_data tokenlessEnv).error = none := by
  refine ⟨rfl, by decide, by decide⟩

/-- Claim C7 as amended: only the JAMF collector checks the token: a
parsed token response with a falsy/absent `access_token` makes it return
zeros with error `No token` (the truncated raw body is only logged, not
stored in the error); the eSchool collector performs no check at all —
its result does not depend on the token response in any way once that
response parses. -/
theorem token_check_amended :
    (∀ (jenv : JamfEnv) (r : RResponse) (tokenBody : Json),
      jenv.tokenCall = RCall.resp r → r.body = Except.ok tokenBody →
      optTruthy (jsonGet tokenBody "access_token") = false →
      collect_jamf_data jenv = ⟨0, 0, some "No token"⟩) ∧
    (∀ (s₁ s₂ : Int) (t₁ t₂ : String) (b₁ b₂ : Json) (cS cT cU cV : RCall),
      collect_eschool_data ⟨RCall.resp ⟨s₁, t₁, Except.ok b₁⟩, cS, cT, cU, cV⟩ =
        collect_eschool_data ⟨RCall.resp ⟨s₂, t₂, Except.ok b₂⟩, cS, cT, cU, cV⟩) := by
  refine ⟨fun jenv r tokenBody h1 h2 h3 => ?_, fun s₁ s₂ t₁ t₂ b₁ b₂ cS cT cU cV => rfl⟩
  simp [collect_jamf_data, jamfRun, h1, getResp, h2, h3]

/-- Claim C7 witness: a concrete JAMF token response with no
`access_token` field yields the `No token` error result. -/
theorem token_check_amended_witness :
    collect_jamf_data ⟨RCall.resp ⟨200, "bad request", Except.ok (Json.obj [])⟩,
      RCall.exn "x", RCall.exn "x"⟩ = ⟨0, 0, some "No token"⟩ :=
  token_check_amended.1
    ⟨RCall.resp ⟨200, "bad request", Except.ok (Json.obj [])⟩, RCall.exn "x", RCall.exn "x"⟩
    ⟨200, "bad request", Except.ok (Json.obj [])⟩ (Json.obj []) rfl rfl rfl

/-! ## Missing-field tolerance claim -/

/-- Claim C10: success responses whose parsed bodies lack the expected
fields (`users`, `chromeosdevices`, `computers`, `mobile_devices`,
`pagingInfo`) make every collector report count 0 with no error — a
malformed-but-parseable response is indistinguishable from an empty
source. -/
theorem missing_fields_read_as_zero
    (ub db tb cb mb sb pb : Json)
    (hu : jsonGet ub "users" = none) (hun : jsonGet ub "nextPageToken" = none)
    (hd : jsonGet db "chromeosdevices" = none)
    (hdn : jsonGet db "nextPageToken" = none)
    (ht : optTruthy (jsonGet tb "access_token") = true)
    (hc : jsonGet cb "computers" = none) (hm : jsonGet mb "mobile_devices" = none)
    (hs : jsonGet sb "pagingInfo" = none) (hp : jsonGet pb "pagingInfo" = none) :
    collect_google_data ⟨none, [GCall.page ub], [GCall.page ub], [GCall.page db]⟩ =
      ⟨0, 0, 0, none⟩ ∧
    collect_jamf_data ⟨RCall.resp ⟨200, "", Except.ok tb⟩,
      RCall.resp ⟨200, "", Except.ok cb⟩, RCall.resp ⟨200, "", Except.ok mb⟩⟩ =
      ⟨0, 0, none⟩ ∧
    collect_eschool_data ⟨RCall.resp ⟨200, "", Except.ok tb⟩,
      RCall.resp ⟨200, "", Except.ok sb⟩, RCall.resp ⟨200, "", Except.ok pb⟩,
      RCall.resp ⟨200, "", Except.ok pb⟩, RCall.resp ⟨200, "", Except.ok pb⟩⟩ =
      ⟨0, 0, none⟩ := by
  refine ⟨?_, ?_, ?_⟩
  · simp [collect_google_data, googleRun, fetchPages, jsonGetListD,
      hu, hun, hd, hdn, optTruthy]
  · simp [collect_jamf_data, jamfRun, getResp, ht, jsonGetListD, hc, hm]
  · have hnil : ∀ key, jsonGet (Json.obj []) key = none := fun _ => rfl
    simp [collect_eschool_data, eschoolRun, getResp, eschoolStaffLoop,
      pagingTotalCount, jsonGetD, jsonGetIntD, hs, hp, hnil]

/-- Claim C10 witness: concrete parseable bodies lacking every expected
field produce zero counts and no error in all three collectors. -/
theorem missing_fields_read_as_zero_witness :
    collect_google_data ⟨none, [GCall.page (Json.obj [])],
      [GCall.page (Json.obj [])], [GCall.page (Json.obj [])]⟩ = ⟨0, 0, 0, none⟩ ∧
    collect_jamf_data ⟨RCall.resp ⟨200, "", Except.ok
        (Json.obj [("access_token", Json.str "tok")])⟩,
      RCall.resp ⟨200, "", Except.ok (Json.obj [])⟩,
      RCall.resp ⟨200, "", Except.ok (Json.obj [])⟩⟩ = ⟨0, 0, none⟩ ∧
    collect_eschool_data ⟨RCall.resp ⟨200, "", Except.ok
        (Json.obj [("access_token", Json.str "tok")])⟩,
      RCall.resp ⟨200, "", Except.ok (Json.obj [])⟩,
      RCall.resp ⟨200, "", Except.ok (Json.obj [])⟩,
      RCall.resp ⟨200, "", Except.ok (Json.obj [])⟩,
      RCall.resp ⟨200, "", Except.ok (Json.obj [])⟩⟩ = ⟨0, 0, none⟩ :=
  missing_fields_read_as_zero (Json.obj []) (Json.obj [])
    (Json.obj [("access_token", Json.str "tok")]) (Json.obj []) (Json.obj [])
    (Json.obj []) (Json.obj []) rfl rfl rfl rfl (by decide) rfl rfl rfl rfl

/-! ## Snapshot record and orchestrating main (lines 469-504) -/

/-- JSON encoding of an optional error string (`None` vs a string), as
`json.dump` serialises it. -/
def optStrJson : Option String → Json
  | none => Json.null
  | some s => Json.str s

/-- `json.dump` image of the Directory partial result dict. -/
def googleResultJson (g : GoogleResult) : Json :=
  Json.obj [("staff", Json.num g.staff), ("students", Json.num g.students),
    ("chromebooks", Json.num g.chromebooks), ("error", optStrJson g.error)]

/-- `json.dump` image of the Device-management partial result dict. -/
def jamfResultJson (j : JamfResult) : Json :=
  Json.obj [("macs", Json.num j.macs), ("ipads", Json.num j.ipads),
    ("error", optStrJson j.error)]

/-- `json.dump` image of the Student-information partial result dict. -/
def eschoolResultJson (e : EschoolResult) : Json :=
  Json.obj [("students", Json.num e.students), ("staff", Json.num e.staff),
    ("error", optStrJson e.error)]

/-- `json.dump` image of the aggregated stats dict. -/
def canonicalStatsJson (s : CanonicalStats) : Json :=
  Json.obj [("total_students", Json.num s.total_students),
    ("total_staff", Json.num s.total_staff),
    ("chromebooks", Json.num s.chromebooks),
    ("mac_computers", Json.num s.mac_computers),
    ("ipads", Json.num s.ipads),
    ("total_devices", Json.num s.total_devices),
    ("notes", Json.arr (s.notes.map Json.str))]

/-- The `full_data` dict `main` builds and writes to `DATA_PATH`
(lines 484-492): run timestamp, aggregated stats, and the three raw
partial results keyed `google` / `jamf` / `eschool`. -/
def full_data (timestamp : String) (google_data : GoogleResult)
    (jamf_data : JamfResult) (eschool_data : EschoolResult) : Json :=
  Json.obj [("timestamp", Json.str timestamp),
    ("aggregated",
      canonicalStatsJson (aggregate_data google_data jamf_data eschool_data)),
    ("raw", Json.obj [("google", googleResultJson google_data),
      ("jamf", jamfResultJson jamf_data),
      ("eschool", eschoolResultJson eschool_data)])]

/-- The snapshot shape as the spec words it (its section 6): raw
results keyed `directory` / `device_management` / `student_information`.
Stated only to be compared with `full_data`, the shape the source
builds. -/
def specSnapshotJson (timestamp : String)
    (aggregated directory device_management student_information : Json) : Json :=
  Json.obj [("timestamp", Json.str timestamp),
    ("aggregated", aggregated),
    ("raw", Json.obj [("directory", directory),
      ("device_management", device_management),
      ("student_information", student_information)])]

/-- The names bound at module level in `aggregate_and_display.py`
(imports, configuration constants, function defs).  Neither `ny_time`
nor `ZoneInfo` is among them. -/
def moduleGlobals : List String :=
  ["json", "os", "requests", "urllib3", "datetime", "timezone", "quote",
   "service_account", "build",
   "GOOGLE_SERVICE_ACCOUNT_FILE", "GOOGLE_ADMIN_EMAIL", "STAFF_OU",
   "STUDENT_OU", "CHROMEBOOK_OU", "JAMF_URL", "JAMF_CLIENT_ID",
   "JAMF_CLIENT_SECRET", "ESCHOOL_TOKEN_URL", "ESCHOOL_BASE_URL",
   "ESCHOOL_CLIENT_ID", "ESCHOOL_CLIENT_SECRET", "OUTPUT_DIR",
   "WIDGET_PATH", "DATA_PATH", "collect_google_data", "collect_jamf_data",
   "collect_eschool_data", "aggregate_data", "generate_widget", "main"]

/-- Python name resolution at module scope: evaluating a name that is
not bound raises `NameError`. -/
def evalGlobal (n : String) : Except String Unit :=
  if moduleGlobals.contains n then Except.ok ()
  else Except.error ("NameError: name " ++ n ++ " is not defined")

/-- `generate_widget(stats)` up to its first effect: line 254 evaluates
`ZoneInfo("America/New_York")`, but `ZoneInfo` is never imported, so the
function raises `NameError` before rendering anything.  The HTML
rendering itself is presentation, outside the modelled core. -/
def generate_widget (_stats : CanonicalStats) : Except String Unit :=
  match evalGlobal "ZoneInfo" with
  | Except.error msg => Except.error msg
  | Except.ok _ => Except.ok ()

/-- `main()` (lines 469-504): the banner print at line 472 interpolates
`ny_time.now()`, and `ny_time` is not bound at module scope, so the very
first statement raises `NameError`.  Were that name defined, the run
would collect the three partial results, aggregate them, build and
persist `full_data`, then render the widget; the returned value is the
persisted snapshot. -/
def pyMain (genv : GoogleEnv) (jenv : JamfEnv) (eenv : EschoolEnv)
    (timestamp : String) : Except String Json :=
  match evalGlobal "ny_time" with
  | Except.error msg => Except.error msg
  | Except.ok _ =>
    let google_data := collect_google_data genv
    let jamf_data := collect_jamf_data jenv
    let eschool_data := collect_eschool_data eenv
    let stats := aggregate_data google_data jamf_data eschool_data
    let snapshot := full_data timestamp google_data jamf_data eschool_data
    match generate_widget stats with
    | Except.error msg => Except.error msg
    | Except.ok _ => Except.ok snapshot

/-- Claim C6 fails on the code: every run of `main` — in particular one
in which all three sources fail — terminates with an uncaught
`NameError` on the undefined `ny_time` (line 472), never exiting
successfully or persisting a snapshot; independently, `generate_widget`
raises `NameError` on the unimported `ZoneInfo` (line 254). -/
theorem main_always_raises_nameerror (genv : GoogleEnv) (jenv : JamfEnv)
    (eenv : EschoolEnv) (timestamp : String) (stats : CanonicalStats) :
    pyMain genv jenv eenv timestamp =
      Except.error "NameError: name ny_time is not defined" ∧
    generate_widget stats =
      Except.error "NameError: name ZoneInfo is not defined" :=
  ⟨rfl, rfl⟩

/-- A concrete `full_data` record (scenario A of the spec with an
eSchool count of 410). -/
def sampleSnapshot : Json :=
  full_data "2026-10-12T08:00:00" ⟨50, 400, 300, none⟩ ⟨20, 15, none⟩
    ⟨410, 0, none⟩

/-- Claim C9 counterexample: the raw section of the persisted record has
none of the keys `directory` / `device_management` /
`student_information` the claim prescribes; it is keyed `google` /
`jamf` / `eschool` instead, unlike the shape the spec words
(`specSnapshotJson`), which does carry the `directory` key. -/
theorem snapshot_raw_keys_differ_from_spec :
    jsonGet (jsonGetD sampleSnapshot "raw" Json.null) "directory" = none ∧
    jsonGet (jsonGetD sampleSnapshot "raw" Json.null) "device_management" = none ∧
    jsonGet (jsonGetD sampleSnapshot "raw" Json.null) "student_information" = none ∧
    jsonGet (jsonGetD sampleSnapshot "raw" Json.null) "google" =
      some (googleResultJson ⟨50, 400, 300, none⟩) ∧
    jsonGet (jsonGetD (specSnapshotJson "2026-10-12T08:00:00"
        (canonicalStatsJson (aggregate_data ⟨50, 400, 300, none⟩ ⟨20, 15, none⟩
          ⟨410, 0, none⟩))
        (googleResultJson ⟨50, 400, 300, none⟩) (jamfResultJson ⟨20, 15, none⟩)
        (eschoolResultJson ⟨410, 0, none⟩)) "raw" Json.null) "directory" =
      some (googleResultJson ⟨50, 400, 300, none⟩) := by
  exact ⟨rfl, rfl, rfl, rfl, rfl⟩

/-- Claim C9 as amended: the record built for persistence holds the run
timestamp string, the aggregated `CanonicalStats` of the three partial
results, and the three raw partial results exactly as produced — keyed
by the concrete source names `google`, `jamf` and `eschool`. -/
theorem snapshot_shape (timestamp : String) (g : GoogleResult)
    (j : JamfResult) (e : EschoolResult) :
    jsonGet (full_data timestamp g j e) "timestamp" =
      some (Json.str timestamp) ∧
    jsonGet (full_data timestamp g j e) "aggregated" =
      some (canonicalStatsJson (aggregate_data g j e)) ∧
    jsonGet (jsonGetD (full_data timestamp g j e) "raw" Json.null) "google" =
      some (googleResultJson g) ∧
    jsonGet (jsonGetD (full_data timestamp g j e) "raw" Json.null) "jamf" =
      some (jamfResultJson j) ∧
    jsonGet (jsonGetD (full_data timestamp g j e) "raw" Json.null) "eschool" =
      some (eschoolResultJson e) := by
  exact ⟨rfl, rfl, rfl, rfl, rfl⟩
